import Mathlib

/-!
Verification of the value-marshalling and store-connection layer of
sync-storage-prototype (rust/store/src/lib.rs, rust/src/errors.rs).

The embedding models machine integers as Int with explicit range
predicates where overflow matters: the model computes the exact integer
value of each arithmetic expression, and a separate predicate marks the
inputs on which the Rust computation leaves the range of its machine
type (i32 or i64), i.e. where the real program overflows (panicking in
debug builds, wrapping in release builds).
-/

/-! ## Machine-integer ranges -/

def i32Min : Int := -(2 ^ 31)

def i32Max : Int := 2 ^ 31 - 1

def i64Min : Int := -(2 ^ 63)

def i64Max : Int := 2 ^ 63 - 1

/-- The value fits in a 32-bit signed integer. -/
abbrev inRangeI32 (v : Int) : Prop := i32Min ≤ v ∧ v ≤ i32Max

/-- The value fits in a 64-bit signed integer. -/
abbrev inRangeI64 (v : Int) : Prop := i64Min ≤ v ∧ v ≤ i64Max

/-! ## Native value types (lib.rs uses mentat_core::Uuid, time::Timespec,
ordered_float::OrderedFloat, Entid = i64) -/

/-- A 128-bit UUID, modelled by its numeric value. -/
structure Uuid where
  val : Nat
deriving DecidableEq, Repr

/-- Uuid::nil(): the all-zero UUID. -/
def Uuid.nil : Uuid := ⟨0⟩

/-- An f64 payload. The marshaller never inspects the float, it only wraps
it (in OrderedFloat) and stores it, so the payload is modelled opaquely by
its bit pattern. -/
structure F64 where
  bits : Nat
deriving DecidableEq, Repr

/-- time::Timespec: sec is an i64, nsec an i32 (nanoseconds). -/
structure Timespec where
  sec : Int
  nsec : Int
deriving DecidableEq, Repr

/-- Timespec::new(sec, nsec). -/
def Timespec.new (sec nsec : Int) : Timespec := ⟨sec, nsec⟩

/-- lib.rs 84-93: Entity wraps one Entid (i64 reference id).
The Rust derive list on Entity is Clone, Debug, PartialEq, Eq. -/
structure Entity where
  id : Int
deriving DecidableEq, Repr

/-- Entity::new(id) (lib.rs 90-92). -/
def Entity.new (id : Int) : Entity := ⟨id⟩

/-- mentat_core::TypedValue, the closed tagged-value union consumed by the
marshaller: String, Ref(Entid), Boolean, Long(i64), Double(OrderedFloat of
f64), Instant (UTC timestamp at microsecond precision, modelled by its
microseconds since the epoch), Uuid, Keyword (namespaced keyword). -/
inductive TypedValue
  | string (s : String)
  | ref (id : Int)
  | boolean (b : Bool)
  | long (v : Int)
  | double (v : F64)
  | instant (micros : Int)
  | uuid (u : Uuid)
  | keyword (ns name : String)
deriving DecidableEq, Repr

/-! ## ToTypedValue impls (lib.rs 68-148), one per native type -/

/-- impl ToTypedValue for String (lib.rs 72-76). -/
def toTypedValueString (s : String) : TypedValue := .string s

/-- impl ToTypedValue for &str (lib.rs 78-82). -/
def toTypedValueStr (s : String) : TypedValue := .string s

/-- impl ToTypedValue for Entity (lib.rs 101-105): TypedValue::Ref(self.id). -/
def toTypedValueEntity (e : Entity) : TypedValue := .ref e.id

/-- impl ToTypedValue for NamespacedKeyword (lib.rs 113-117). -/
def toTypedValueKeyword (ns name : String) : TypedValue := .keyword ns name

/-- impl ToTypedValue for bool (lib.rs 119-123). -/
def toTypedValueBool (b : Bool) : TypedValue := .boolean b

/-- impl ToTypedValue for i64 (lib.rs 125-129): TypedValue::Long. -/
def toTypedValueLong (v : Int) : TypedValue := .long v

/-- impl ToTypedValue for f64 (lib.rs 131-135): TypedValue::Double(OrderedFloat(v)). -/
def toTypedValueDouble (v : F64) : TypedValue := .double v

/-- lib.rs 139: let micro_seconds = (self.sec * 1000000) + i64::from(self.nsec * 1000).
This is the exact integer value of that expression; note the code multiplies
the nanosecond field by 1000 rather than dividing it. -/
def timespecMicros (t : Timespec) : Int := t.sec * 1000000 + t.nsec * 1000

/-- impl ToTypedValue for Timespec (lib.rs 137-142):
TypedValue::Instant(DateTime::from_micros(micro_seconds)). -/
def toTypedValueTimespec (t : Timespec) : TypedValue := .instant (timespecMicros t)

/-- The inputs on which the Rust computation at lib.rs 139 overflows a
machine type: self.nsec * 1000 is computed in i32, self.sec * 1000000 and
the final sum in i64. -/
abbrev timespecMicrosOverflows (t : Timespec) : Prop :=
  ¬ inRangeI32 (t.nsec * 1000) ∨ ¬ inRangeI64 (t.sec * 1000000) ∨
    ¬ inRangeI64 (timespecMicros t)

/-- impl ToTypedValue for Uuid (lib.rs 144-148). -/
def toTypedValueUuid (u : Uuid) : TypedValue := .uuid u

/-! ## ToInner impls (lib.rs 150-222): the from_tagged extractions.
The code defines extractions into Option Entity, Option i64, String, Uuid
and Option Timespec (the last two also from references); there is no
extraction into bool or f64. -/

/-- impl ToInner of Option Entity for TypedValue (lib.rs 154-161). -/
def toInnerEntity : TypedValue → Option Entity
  | .ref r => some (Entity.new r)
  | _ => none

/-- impl ToInner of Option i64 for TypedValue (lib.rs 163-170). -/
def toInnerLong : TypedValue → Option Int
  | .long v => some v
  | _ => none

/-- impl ToInner of String for TypedValue (lib.rs 172-179): mismatch
yields String::new(), the empty string. -/
def toInnerString : TypedValue → String
  | .string s => s
  | _ => ""

/-- impl ToInner of Uuid for TypedValue (lib.rs 181-188): mismatch yields
Uuid::nil(). -/
def toInnerUuid : TypedValue → Uuid
  | .uuid u => u
  | _ => Uuid.nil

/-- chrono DateTime::timestamp() on an instant held at microsecond
precision: whole seconds since the epoch, floored. -/
def instantTimestamp (micros : Int) : Int := micros.fdiv 1000000

/-- impl ToInner of Option Timespec for TypedValue (lib.rs 190-200):
Some(Timespec::new(v.timestamp(), 0)) on the Instant variant. -/
def toInnerTimespec : TypedValue → Option Timespec
  | .instant v => some (Timespec.new (instantTimestamp v) 0)
  | _ => none

/-- impl ToInner of Option Timespec for Option of &TypedValue (lib.rs 202-212). -/
def toInnerTimespecOptRef : Option TypedValue → Option Timespec
  | some (.instant v) => some (Timespec.new (instantTimestamp v) 0)
  | _ => none

/-- impl ToInner of Uuid for &TypedValue (lib.rs 215-222). -/
def toInnerUuidRef : TypedValue → Uuid
  | .uuid u => u
  | _ => Uuid.nil

/-! ## Variant testers for stating the mismatch-default claims -/

def TypedValue.isString : TypedValue → Bool
  | .string _ => true
  | _ => false

def TypedValue.isRef : TypedValue → Bool
  | .ref _ => true
  | _ => false

def TypedValue.isLong : TypedValue → Bool
  | .long _ => true
  | _ => false

def TypedValue.isUuid : TypedValue → Bool
  | .uuid _ => true
  | _ => false

def TypedValue.isInstant : TypedValue → Bool
  | .instant _ => true
  | _ => false

/-! ## Which scalar kinds have a from_tagged extraction (for C1) -/

/-- The scalar kinds named by the round-trip claim. -/
inductive ScalarKind
  | string
  | boolean
  | long
  | double
  | uuid
  | entityRef
deriving DecidableEq, Repr

/-- The six kinds the round-trip claim quantifies over. -/
def claimedRoundTripKinds : List ScalarKind :=
  [.string, .boolean, .long, .double, .uuid, .entityRef]

/-- The kinds for which lib.rs 150-222 defines a ToInner (from_tagged)
extraction: String, Option i64, Uuid and Option Entity (Option Timespec
also exists but Timespec is not one of the six scalar kinds of the claim).
There is no ToInner impl targeting bool or f64 anywhere in the sources. -/
def extractionTargetKinds : List ScalarKind :=
  [.string, .long, .uuid, .entityRef]

/-! ## Spec-side timestamp formula (for the refinement comparison in C2) -/

/-- Modelled from the spec: convert seconds plus nanoseconds to integer
microseconds since the epoch, truncating (not rounding) the nanosecond
remainder below microsecond resolution. This is the value the spec says
the Timespec conversion computes, to be compared with timespecMicros. -/
def specTimespecMicros (t : Timespec) : Int := t.sec * 1000000 + t.nsec.tdiv 1000

/-! ## Rust derive list on Entity (for C9) -/

/-- The traits relevant to equality and ordering. peq is PartialEq, pord
is PartialOrd. -/
inductive RustTrait
  | clone
  | debug
  | peq
  | eq
  | pord
  | ord
deriving DecidableEq, Repr

/-- lib.rs 84: the derive attribute on Entity is
Clone, Debug, PartialEq, Eq — no ordering trait is derived or
implemented for Entity anywhere in the sources. -/
def entityDerivedTraits : List RustTrait := [.clone, .debug, .peq, .eq]

/-! ## Store and StoreConnection (lib.rs 224-294)

The engine (mentat) is external: its query, transact and connect results
are taken as parameters. The RwLock around the high-level connection is
modelled by its poison flag: std::sync RwLock read()/write() return Err
exactly when the lock is poisoned, and each operation in lib.rs calls
.unwrap() on that result, which panics on Err. An Outcome distinguishes
a panic from a returned value. -/

/-- An engine-level (mentat) error. -/
inductive EngineError
  | mk (msg : String)
deriving DecidableEq, Repr

/-- The store layer error type (store::errors): transact wraps the engine
error via the question-mark conversion (lib.rs 241), preserving it. -/
inductive StoreError
  | engine (e : EngineError)
deriving DecidableEq, Repr

/-- Result of running a piece of code that may panic. -/
inductive Outcome (α : Type)
  | panicked
  | ok (a : α)
deriving DecidableEq, Repr

/-- The observable state of the RwLock guarding the Store's high-level
connection. -/
structure LockState where
  poisoned : Bool
deriving DecidableEq, Repr

/-- RwLock::read() / RwLock::write(): Err(PoisonError) exactly when the
lock is poisoned. -/
def lockAcquire (st : LockState) : Except Unit Unit :=
  if st.poisoned then .error () else .ok ()

/-- The question-mark conversion in transact (lib.rs 241): an engine
error becomes a store error, the payload is preserved. -/
def wrapStoreError {α : Type} : Except EngineError α → Except StoreError α
  | .ok a => .ok a
  | .error e => .error (.engine e)

/-- StoreConnection::query (lib.rs 231-233): read-lock the Store's
connection, .unwrap() the lock result (panic when poisoned), then forward
whatever the engine's q_once returns. The engine result is a parameter
since the engine is external. -/
def connQuery (st : LockState) (engineResult : Except EngineError String) :
    Outcome (Except EngineError String) :=
  match lockAcquire st with
  | .error _ => .panicked
  | .ok _ => .ok engineResult

/-- StoreConnection::query_args (lib.rs 235-238): same lock discipline as
query, forwarding the engine result of q_once with the bound inputs. -/
def connQueryArgs (st : LockState) (engineResult : Except EngineError String) :
    Outcome (Except EngineError String) :=
  match lockAcquire st with
  | .error _ => .panicked
  | .ok _ => .ok engineResult

/-- StoreConnection::transact (lib.rs 240-242): write-lock, .unwrap()
(panic when poisoned), forward the engine result wrapped into the store
error type. -/
def connTransactOp (st : LockState) (engineResult : Except EngineError String) :
    Outcome (Except StoreError String) :=
  match lockAcquire st with
  | .error _ => .panicked
  | .ok _ => .ok (wrapStoreError engineResult)

/-- StoreConnection::fetch_schema (lib.rs 244-246): read-lock, .unwrap()
(panic when poisoned), return the schema as a bare edn value — not a
result type. -/
def connFetchSchema (st : LockState) (schema : String) : Outcome String :=
  match lockAcquire st with
  | .error _ => .panicked
  | .ok _ => .ok schema

/-- The engine's observable database state, abstractly: mentat owns it,
this layer only forwards to it. -/
abbrev EngineState := List String

/-- mentat_db TxReport, by its transaction id. -/
structure TxReport where
  txId : Int
deriving DecidableEq, Repr

/-- The state-and-error view of StoreConnection::transact (lib.rs 240-242):
the wrapper hands the transaction text to the engine and wraps the error;
it performs no state change of its own. The engine's transact is a
parameter returning the state it left behind and its result. -/
def storeTransact
    (engine : EngineState → String → EngineState × Except EngineError TxReport)
    (s : EngineState) (tx : String) : EngineState × Except StoreError TxReport :=
  ((engine s tx).1, wrapStoreError (engine s tx).2)

/-- A raw rusqlite connection, by the location it was opened at. -/
structure RawHandle where
  location : String
deriving DecidableEq, Repr

/-- lib.rs 256-261: Store holds Arc(RwLock(Conn)) plus the uri string.
The Arc allocation is modelled by an identity; Clone on Store clones the
Arc (same allocation) and the uri string. -/
structure Store where
  connId : Nat
  uri : String
deriving DecidableEq, Repr

/-- derive(Clone) on Store (lib.rs 257): Arc::clone keeps the same
guarded connection, String::clone the same uri. -/
def Store.clone (s : Store) : Store := s

/-- lib.rs 224-228: StoreConnection owns a raw handle and a Store. -/
structure StoreConn where
  handle : RawHandle
  store : Store
deriving DecidableEq, Repr

/-- StoreConnection::new_connection (lib.rs 248-253): open a fresh raw
engine connection at self.store.uri (mentat new_connection, external,
passed as a parameter), pair it with self.store.clone(). -/
def newConnectionOp (rawConnect : String → Except StoreError RawHandle)
    (sc : StoreConn) : Except StoreError StoreConn :=
  match rawConnect sc.store.uri with
  | .ok h => .ok { handle := h, store := sc.store.clone }
  | .error e => .error e

/-! ## Theorems -/

/-- C1, counterexample: the round-trip claim quantifies over six scalar
kinds, but the code defines no from_tagged extraction for boolean or for
64-bit float (no ToInner impl targets bool or f64 in lib.rs 150-222), so
the claimed round trip does not exist for those two kinds. -/
theorem c1_counterexample :
    ScalarKind.boolean ∈ claimedRoundTripKinds ∧
      ScalarKind.boolean ∉ extractionTargetKinds ∧
      ScalarKind.double ∈ claimedRoundTripKinds ∧
      ScalarKind.double ∉ extractionTargetKinds := by
  decide

/-- C1, amended: for the kinds that do have a from_tagged extraction,
extracting from the tagged value produced from v returns v — the string
directly, the 64-bit integer and the Entity through the optional
extraction as Some v, and the unique-identifier directly. -/
theorem c1_roundTrip :
    (∀ s : String, toInnerString (toTypedValueString s) = s) ∧
      (∀ v : Int, toInnerLong (toTypedValueLong v) = some v) ∧
      (∀ u : Uuid, toInnerUuid (toTypedValueUuid u) = u) ∧
      (∀ e : Entity, toInnerEntity (toTypedValueEntity e) = some e) :=
  ⟨fun _ => rfl, fun _ => rfl, fun _ => rfl, fun e => by cases e; rfl⟩

/-- C2: at Timespec(sec 0, nsec 1500) the code produces an Instant of
1500000 microseconds (lib.rs 139 multiplies the nanosecond field by 1000
instead of dividing it), whereas the spec's formula — nanoseconds
truncated to microseconds — gives 1 microsecond. -/
theorem c2_bug_eval :
    toTypedValueTimespec (Timespec.new 0 1500) = TypedValue.instant 1500000 ∧
      specTimespecMicros (Timespec.new 0 1500) = 1 ∧
      TypedValue.instant 1500000 ≠ TypedValue.instant 1 := by
  refine ⟨rfl, rfl, ?_⟩
  decide

/-- C3: round-tripping Timespec(sec 0, nsec 1500) through the tagged
Instant yields Timespec(sec 1, nsec 0) — the misscaled forward conversion
turns 1500 nanoseconds into 1.5 seconds and the extraction keeps whole
seconds only — not the claimed truncation to whole microseconds, which
would be Timespec(sec 0, nsec 1000). -/
theorem c3_bug_eval :
    toInnerTimespec (toTypedValueTimespec (Timespec.new 0 1500)) =
        some (Timespec.new 1 0) ∧
      some (Timespec.new 1 0) ≠ some (Timespec.new 0 1000) := by
  refine ⟨?_, by decide⟩
  decide

/-- C4: on a variant mismatch every extraction returns its documented
default: the empty string for the String extraction, the nil UUID for the
two identifier extractions, and none for the optional Entity, integer and
timestamp extractions (including the optional-reference timestamp one,
which also returns none on an absent reference). -/
theorem c4_mismatch_defaults (tv : TypedValue) :
    (tv.isString = false → toInnerString tv = "") ∧
      (tv.isUuid = false → toInnerUuid tv = Uuid.nil ∧ toInnerUuidRef tv = Uuid.nil) ∧
      (tv.isRef = false → toInnerEntity tv = none) ∧
      (tv.isLong = false → toInnerLong tv = none) ∧
      (tv.isInstant = false →
        toInnerTimespec tv = none ∧ toInnerTimespecOptRef (some tv) = none) ∧
      toInnerTimespecOptRef none = none := by
  cases tv <;>
    simp [TypedValue.isString, TypedValue.isUuid, TypedValue.isRef,
      TypedValue.isLong, TypedValue.isInstant, toInnerString, toInnerUuid,
      toInnerUuidRef, toInnerEntity, toInnerLong, toInnerTimespec,
      toInnerTimespecOptRef]

/-- C4 witness: the defaults at the concrete mismatched value Boolean true. -/
theorem c4_mismatch_defaults_witness :
    toInnerString (TypedValue.boolean true) = "" ∧
      toInnerUuid (TypedValue.boolean true) = Uuid.nil ∧
      toInnerEntity (TypedValue.boolean true) = none ∧
      toInnerLong (TypedValue.boolean true) = none ∧
      toInnerTimespec (TypedValue.boolean true) = none :=
  ⟨(c4_mismatch_defaults (TypedValue.boolean true)).1 rfl,
    ((c4_mismatch_defaults (TypedValue.boolean true)).2.1 rfl).1,
    (c4_mismatch_defaults (TypedValue.boolean true)).2.2.1 rfl,
    (c4_mismatch_defaults (TypedValue.boolean true)).2.2.2.1 rfl,
    ((c4_mismatch_defaults (TypedValue.boolean true)).2.2.2.2.1 rfl).1⟩

/-- C5, counterexample: on a poisoned Store lock, query and transact do
not return an error — the .unwrap() on the lock result panics. -/
theorem c5_counterexample :
    connQuery (LockState.mk true) (Except.ok "result") = Outcome.panicked ∧
      connTransactOp (LockState.mk true) (Except.ok "report") = Outcome.panicked :=
  ⟨rfl, rfl⟩

/-- C5, amended: when the lock is healthy, query, query_args and transact
return the engine's result (transact wrapping the error into the store
error type) and fetch_schema returns the bare schema value; when the lock
is poisoned, every one of the four operations panics on the unwrapped
lock result instead of returning an error. -/
theorem c5_amended (st : LockState) (q t : Except EngineError String) (sch : String) :
    (st.poisoned = false →
      connQuery st q = .ok q ∧ connQueryArgs st q = .ok q ∧
        connTransactOp st t = .ok (wrapStoreError t) ∧
        connFetchSchema st sch = .ok sch) ∧
      (st.poisoned = true →
        connQuery st q = .panicked ∧ connQueryArgs st q = .panicked ∧
          connTransactOp st t = .panicked ∧ connFetchSchema st sch = .panicked) := by
  obtain ⟨p⟩ := st
  cases p <;>
    simp [connQuery, connQueryArgs, connTransactOp, connFetchSchema, lockAcquire]

/-- C5 witness: both branches at concrete lock states and engine results. -/
theorem c5_amended_witness :
    connQuery (LockState.mk false) (Except.ok "r") = Outcome.ok (Except.ok "r") ∧
      connQuery (LockState.mk true) (Except.ok "r") = Outcome.panicked :=
  ⟨((c5_amended (LockState.mk false) (Except.ok "r") (Except.ok "r") "s").1 rfl).1,
    ((c5_amended (LockState.mk true) (Except.ok "r") (Except.ok "r") "s").2 rfl).1⟩

/-- C6: the transact wrapper adds no state change of its own, so given the
engine-level atomicity the spec relies upon (a failed engine transact
leaves the engine state unchanged), a failed transact propagates the
engine error as a typed store error, leaves the store state exactly as it
was, and every subsequent query reads the same state as before the
transaction. -/
theorem c6_transact_atomicity
    (engine : EngineState → String → EngineState × Except EngineError TxReport)
    (hatomic : ∀ s t e, (engine s t).2 = Except.error e → (engine s t).1 = s)
    (s : EngineState) (t : String) (e : EngineError)
    (hfail : (engine s t).2 = Except.error e) :
    (storeTransact engine s t).2 = Except.error (StoreError.engine e) ∧
      (storeTransact engine s t).1 = s ∧
      ∀ query : EngineState → List String,
        query (storeTransact engine s t).1 = query s := by
  have hst : (storeTransact engine s t).1 = s := hatomic s t e hfail
  refine ⟨?_, hst, fun query => by rw [hst]⟩
  show wrapStoreError (engine s t).2 = Except.error (StoreError.engine e)
  rw [hfail]
  rfl

/-- C6 witness: a concrete failing engine, atomic on failure. -/
theorem c6_transact_atomicity_witness :
    (storeTransact (fun s _ => (s, Except.error (EngineError.mk "bad tx"))) ["a"] "tx").2 =
        Except.error (StoreError.engine (EngineError.mk "bad tx")) ∧
      (storeTransact (fun s _ => (s, Except.error (EngineError.mk "bad tx"))) ["a"] "tx").1 =
        ["a"] :=
  ⟨(c6_transact_atomicity (fun s _ => (s, Except.error (EngineError.mk "bad tx")))
      (fun _ _ _ _ => rfl) ["a"] "tx" (EngineError.mk "bad tx") rfl).1,
    (c6_transact_atomicity (fun s _ => (s, Except.error (EngineError.mk "bad tx")))
      (fun _ _ _ _ => rfl) ["a"] "tx" (EngineError.mk "bad tx") rfl).2.1⟩

/-- C7: new_connection opens the raw engine connection with exactly the
Store's stored uri — so when the engine's connect records the location it
was given, the new raw handle refers to the Store's location — and the
returned connection holds the clone of the same Store, which is the Store
itself (same guarded connection identity, same uri). -/
theorem c7_new_connection
    (rawConnect : String → Except StoreError RawHandle)
    (hloc : ∀ u h, rawConnect u = Except.ok h → h.location = u)
    (sc : StoreConn) (h : RawHandle)
    (hok : rawConnect sc.store.uri = Except.ok h) :
    newConnectionOp rawConnect sc = Except.ok ⟨h, sc.store⟩ ∧
      h.location = sc.store.uri ∧
      Store.clone sc.store = sc.store := by
  refine ⟨?_, hloc _ _ hok, rfl⟩
  show (match rawConnect sc.store.uri with
    | .ok h => Except.ok (⟨h, sc.store.clone⟩ : StoreConn)
    | .error e => .error e) = Except.ok ⟨h, sc.store⟩
  rw [hok]
  rfl

/-- C7 witness: a concrete connect function that records its argument as
the handle's location, applied to a connection whose store sits at
db.sqlite. -/
theorem c7_new_connection_witness :
    newConnectionOp (fun u => Except.ok (RawHandle.mk u))
        (StoreConn.mk (RawHandle.mk "db.sqlite") (Store.mk 0 "db.sqlite")) =
      Except.ok (StoreConn.mk (RawHandle.mk "db.sqlite") (Store.mk 0 "db.sqlite")) :=
  (c7_new_connection (fun u => Except.ok (RawHandle.mk u))
    (fun u h heq => by cases heq; rfl)
    (StoreConn.mk (RawHandle.mk "db.sqlite") (Store.mk 0 "db.sqlite"))
    (RawHandle.mk "db.sqlite") rfl).1

/-- C8: the microsecond computation of the Timespec conversion overflows
its machine types on an ordinary input — at half a second (nsec
500000000) the i32 product nsec * 1000 is 500000000000, far above the
i32 maximum — so to_tagged is not total and infallible as claimed: it
panics in debug builds (wraps in release) on valid timestamps. -/
theorem c8_overflow_eval :
    timespecMicrosOverflows (Timespec.new 0 500000000) ∧
      (500000000 * 1000 : Int) > i32Max := by
  constructor
  · left
    decide
  · decide

/-- C9, counterexample: neither Ord nor PartialOrd is among the traits
the code derives (or implements) for Entity, so no ordering comparison on
Entity exists to agree with the ordering of the wrapped ids. -/
theorem c9_counterexample :
    RustTrait.ord ∉ entityDerivedTraits ∧ RustTrait.pord ∉ entityDerivedTraits := by
  decide

/-- C9, amended: equality comparisons on Entity (the derived PartialEq
and Eq) agree with equality of the wrapped reference ids; the code
defines no ordering on Entity. -/
theorem c9_entity_eq (a b : Entity) : a = b ↔ a.id = b.id :=
  ⟨fun h => h ▸ rfl, fun h => by cases a; cases b; cases h; rfl⟩

/-- C10: whichever tagged value (or optional reference to one) an
optional timestamp is extracted from, the result is none or a timestamp
whose nanosecond component is zero — the extraction truncates to whole
seconds. -/
theorem c10_extracted_nsec_zero :
    (∀ tv : TypedValue,
      toInnerTimespec tv = none ∨
        ∃ s, toInnerTimespec tv = some (Timespec.new s 0)) ∧
      (∀ otv : Option TypedValue,
        toInnerTimespecOptRef otv = none ∨
          ∃ s, toInnerTimespecOptRef otv = some (Timespec.new s 0)) := by
  constructor
  · intro tv
    cases tv <;> first
      | exact Or.inl rfl
      | exact Or.inr ⟨_, rfl⟩
  · intro otv
    match otv with
    | none => exact Or.inl rfl
    | some tv =>
      cases tv <;> first
        | exact Or.inl rfl
        | exact Or.inr ⟨_, rfl⟩
